import Mathlib

/-!
Verification of the two diagnostic scripts in
docs/issues/e2e-test-errors: check-test-progress.py (the Progress
Reporter) and count-projects.py (the Project-State Counter).

Both scripts are read-only filesystem inspectors.  We model the parts of
the filesystem they observe as a tree of entries (regular files with a
byte size, directories with children; both carry a last-modification
time).  Python float timestamps are modelled as exact rationals, and
Python float arithmetic on sizes and percentages is modelled as exact
rational arithmetic; `int(x)` on a non-negative value is the floor.
`datetime` formatting and the exact wording of printed lines are not
modelled: each script is embedded as a pure function from the observed
filesystem state to a structured description of what it prints.
-/

/-- A filesystem entry as observed by the scripts: a regular file with a
name, a byte size (`st_size`) and a modification time, or a directory
with a name, a modification time and a list of children. -/
inductive Entry : Type where
  | file : String → Nat → ℚ → Entry
  | dir : String → ℚ → List Entry → Entry

/-- Name of an entry. -/
def Entry.name : Entry → String
  | .file n _ _ => n
  | .dir n _ _ => n

/-- Modification time of an entry (`os.path.getmtime`). -/
def Entry.mtime : Entry → ℚ
  | .file _ _ m => m
  | .dir _ m _ => m

/-- Whether the entry is a directory (`os.path.isdir` / `Path.is_dir`). -/
def Entry.isDir : Entry → Bool
  | .file _ _ _ => false
  | .dir _ _ _ => true

/-- Whether the entry is a regular file (`Path.is_file`). -/
def Entry.isFile : Entry → Bool
  | .file _ _ _ => true
  | .dir _ _ _ => false

/-- Byte size of an entry (`stat().st_size`); the scripts only ever read
it on regular files. -/
def Entry.size : Entry → Nat
  | .file _ s _ => s
  | .dir _ _ _ => 0

/-- All entries strictly below a directory whose children are `es`, at
every depth: the result of `Path.rglob("*")` on that directory.  The
pattern `*` matches every name, so the enumeration is the full list of
descendants. -/
def belowList : List Entry → List Entry
  | [] => []
  | .file n s m :: es => .file n s m :: belowList es
  | .dir n m cs :: es => .dir n m cs :: (belowList cs ++ belowList es)

/-- Total number of bytes in regular files at any depth below a
directory whose children are `es`, written as a direct structural
recursion (the specification-side description of the recursive size
sum). -/
def fileBytesList : List Entry → Nat
  | [] => 0
  | .file _ s _ :: es => s + fileBytesList es
  | .dir _ _ cs :: es => fileBytesList cs + fileBytesList es

/-- The fnmatch pattern `*.json` applied to a name: `*` matches any
(possibly empty) character sequence, so a name matches exactly when it
ends in `.json`; stated on the character list so that it evaluates by
kernel reduction. -/
def nameMatchesJson (s : String) : Bool :=
  List.isSuffixOf ".json".data s.data

/-- Result of `Path.glob("*.json")` on a directory with children `cs`:
pathlib glob matches entries of every kind (regular files, directories,
anything else) whose name matches the pattern. -/
def globJson (cs : List Entry) : List Entry :=
  cs.filter (fun e => nameMatchesJson e.name)

/- ------------------------------------------------------------------
check-test-progress.py (the Progress Reporter)
------------------------------------------------------------------ -/

/-- Checkpoint count hard-coded in check-test-progress.py. -/
def CHECKPOINT_COUNT : Nat := 40

/-- Total number of tests hard-coded in check-test-progress.py. -/
def TOTAL_TESTS : Nat := 66

/-- The completion percentage `int(test_count/TOTAL_TESTS*100)`:
float arithmetic modelled as exact rational arithmetic, and `int` of a
non-negative value is the floor. -/
def percentOf (n : Nat) : ℤ := ⌊(n : ℚ) / (TOTAL_TESTS : ℚ) * 100⌋

/-- The progress-versus-checkpoint section of the report: the strictly
greater branch prints the positive delta and the remaining count, the
equal branch prints the stalled notice, the less-than branch prints the
unexpected-decrease notice.  Only the first branch prints a remaining
figure, which is why only `progress` carries one. -/
inductive Delta : Type where
  | progress : ℤ → ℤ → Delta
  | stalled : Delta
  | decreased : Delta
deriving DecidableEq

/-- Everything the Progress Reporter prints when the results directory
exists: the tests-completed count, the completion percentage, the
delta section, and the recent-results list (name as printed, i.e.
truncated to 70 characters, with its modification time). -/
structure ProgressReport : Type where
  test_count : Nat
  percent : ℤ
  delta : Delta
  recent : List (String × ℚ)

/-- The observable output of one run of check-test-progress.py. -/
inductive ProgressOutput : Type where
  | resultsDirNotFound : ProgressOutput
  | report : ProgressReport → ProgressOutput

/-- The body of check-test-progress.py once the results directory is
known to exist, with `entries` the listing of that directory.  Mirrors
the source line by line: count the entries that are directories; print
count, percentage and the hard-coded checkpoint line; compare with the
checkpoint; rebuild the (name, mtime) list for directories, sort it by
mtime descending (Python `list.sort` with `reverse=True` is stable,
i.e. keeps the original order of equal keys, which is exactly a stable
merge sort with the flipped comparison), and print the first five with
names truncated to 70 characters. -/
def progress_report (entries : List Entry) : ProgressReport :=
  let test_count := (entries.filter (fun d => d.isDir)).length
  let percent := percentOf test_count
  let delta : Delta :=
    if test_count > CHECKPOINT_COUNT then
      .progress ((test_count : ℤ) - (CHECKPOINT_COUNT : ℤ))
        ((TOTAL_TESTS : ℤ) - (test_count : ℤ))
    else if test_count = CHECKPOINT_COUNT then .stalled
    else .decreased
  let test_dirs :=
    (entries.filter (fun d => d.isDir)).map (fun d => (d.name, d.mtime))
  let sorted := test_dirs.mergeSort (fun a b => decide (b.2 ≤ a.2))
  let recent := (sorted.take 5).map (fun p => (p.1.take 70, p.2))
  ⟨test_count, percent, delta, recent⟩

/-- check-test-progress.py as a whole: `none` is the state in which
`os.path.exists(results_dir)` is false, in which case only the
not-found message is printed; otherwise `some entries` is the listing
of the results directory. -/
def check_test_progress (results_dir : Option (List Entry)) : ProgressOutput :=
  match results_dir with
  | none => .resultsDirNotFound
  | some entries => .report (progress_report entries)

/- ------------------------------------------------------------------
count-projects.py (the Project-State Counter)
------------------------------------------------------------------ -/

/-- The children of the qcut application-data root that the counter
looks at, each `none` when the corresponding subdirectory does not
exist and `some children` when it does. -/
structure QcutDir : Type where
  projects : Option (List Entry)
  indexedDB : Option (List Entry)
  localStorage : Option (List Entry)
  sessionStorage : Option (List Entry)
  blobStorage : Option (List Entry)
  fileSystem : Option (List Entry)

/-- The classification printed in the SUMMARY section: DATABASE IS
CLEAN, PARTIALLY CLEAN, or DATABASE HAS DATA (the latter reports the
project-file count). -/
inductive Classification : Type where
  | clean : Classification
  | partlyClean : Classification
  | hasData : Nat → Classification
deriving DecidableEq

/-- Everything the Project-State Counter prints when the qcut root
exists: the project-file count (and whether the projects folder
existed, which decides which of the two lines is printed), the
IndexedDB section (directory count, file count, total size in MB) when
IndexedDB exists, one (name, file count) line per existing extra
storage directory, and the classification. -/
structure CounterReport : Type where
  project_files : Nat
  projectsFolderExists : Bool
  indexedDBInfo : Option (Nat × Nat × ℚ)
  storageCounts : List (String × Nat)
  classification : Classification

/-- The observable output of one run of count-projects.py. -/
inductive CounterOutput : Type where
  | qcutDirMissing : CounterOutput
  | report : CounterReport → CounterOutput

/-- The body of count_projects once the qcut root is known to exist.
Mirrors the source: `project_files` starts at 0 and is set to
`len(list(projects_folder.glob("*.json")))` only when the projects
folder exists; the IndexedDB section enumerates `rglob("*")`, splits it
into directories and regular files, and sums `st_size` over the regular
files (each of which still exists in our static model), converting to
MB by dividing by 1024*1024; the four extra storage directories print a
recursive file count when present and are silently skipped when absent;
the classification is the final if/elif/else on `project_files == 0`
and `indexeddb_dir.exists()`. -/
def count_projects_report (q : QcutDir) : CounterReport :=
  let project_files :=
    match q.projects with
    | some cs => (globJson cs).length
    | none => 0
  let indexedDBInfo : Option (Nat × Nat × ℚ) :=
    match q.indexedDB with
    | some cs =>
      let db_files := belowList cs
      let db_dirs := db_files.filter (fun f => f.isDir)
      let db_regular_files := db_files.filter (fun f => f.isFile)
      let total_size := (db_regular_files.map (fun f => f.size)).sum
      let size_mb : ℚ := (total_size : ℚ) / (1024 * 1024)
      some (db_dirs.length, db_regular_files.length, size_mb)
    | none => none
  let storageCounts :=
    ([("Local Storage", q.localStorage), ("Session Storage", q.sessionStorage),
      ("blob_storage", q.blobStorage), ("File System", q.fileSystem)].filterMap
      (fun p =>
        match p.2 with
        | some cs =>
          some (p.1, ((belowList cs).filter (fun f => f.isFile)).length)
        | none => none))
  let classification :=
    if project_files = 0 && q.indexedDB.isNone then Classification.clean
    else if project_files = 0 && q.indexedDB.isSome then Classification.partlyClean
    else Classification.hasData project_files
  ⟨project_files, q.projects.isSome, indexedDBInfo, storageCounts, classification⟩

/-- count-projects.py as a whole: `none` is the state in which the qcut
root does not exist, in which case only the no-projects message is
printed and the function returns. -/
def count_projects (qcut_dir : Option QcutDir) : CounterOutput :=
  match qcut_dir with
  | none => .qcutDirMissing
  | some q => .report (count_projects_report q)

/- ------------------------------------------------------------------
Filesystem-operation traces: every call either script makes into the
filesystem, in program order, used to state that both scripts are pure
readers.
------------------------------------------------------------------ -/

/-- A filesystem operation.  The first eight constructors are the kinds
of read-only query the two scripts perform; the last three are the
mutating operations neither script ever performs. -/
inductive FSOp : Type where
  | existsCheck : List String → FSOp
  | listDir : List String → FSOp
  | isDirCheck : Entry → FSOp
  | isFileCheck : Entry → FSOp
  | getMtime : Entry → FSOp
  | globCall : List String → String → FSOp
  | rglobCall : List String → String → FSOp
  | statCall : Entry → FSOp
  | writeFile : List String → FSOp
  | deleteEntry : List String → FSOp
  | makeDir : List String → FSOp

/-- Whether the operation only reads the filesystem. -/
def FSOp.isRead : FSOp → Bool
  | .existsCheck _ => true
  | .listDir _ => true
  | .isDirCheck _ => true
  | .isFileCheck _ => true
  | .getMtime _ => true
  | .globCall _ _ => true
  | .rglobCall _ _ => true
  | .statCall _ => true
  | .writeFile _ => false
  | .deleteEntry _ => false
  | .makeDir _ => false

/-- Operations performed on an optional directory: `g` applied to its
children when it exists, nothing when it does not. -/
def optOps (o : Option (List Entry)) (g : List Entry → List FSOp) : List FSOp :=
  match o with
  | some cs => g cs
  | none => []

/-- Path of the results directory relative to the repository root,
`<script-dir>/../../completed/test-results-raw`. -/
def results_dir_path : List String := ["docs", "completed", "test-results-raw"]

/-- Path of the qcut application-data root,
`Path.home()/AppData/Roaming/qcut`. -/
def qcut_dir_path : List String := ["AppData", "Roaming", "qcut"]

/-- The sequence of filesystem calls check-test-progress.py makes:
one existence check; then, only if the directory exists, a listing, an
`isdir` per listed entry (the counting comprehension), a second
listing, and per entry an `isdir` followed by a `getmtime` when the
entry is a directory. -/
def check_test_progress_trace (results_dir : Option (List Entry)) : List FSOp :=
  FSOp.existsCheck results_dir_path ::
    match results_dir with
    | none => []
    | some entries =>
      FSOp.listDir results_dir_path ::
        (entries.map (fun d => FSOp.isDirCheck d) ++
          (FSOp.listDir results_dir_path ::
            entries.flatMap (fun d =>
              FSOp.isDirCheck d ::
                if d.isDir then [FSOp.getMtime d] else [])))

/-- The sequence of filesystem calls count_projects makes: the root
existence check; then, only if the root exists: the projects-folder
check and its glob when present; the IndexedDB check and, when present,
its rglob followed by an `is_dir` and an `is_file` per enumerated entry
(the two list comprehensions) and an `exists` plus a `stat` per regular
file (the size generator); per extra storage directory an existence
check and, when present, an rglob with an `is_file` per enumerated
entry; finally the summary re-evaluates `indexeddb_dir.exists()` -
once when `project_files == 0` and the store is absent (the first
condition is then true), twice when `project_files == 0` and the store
is present (the elif tests it again), and never when `project_files`
is positive (`and` short-circuits). -/
def count_projects_trace (qcut_dir : Option QcutDir) : List FSOp :=
  FSOp.existsCheck qcut_dir_path ::
    match qcut_dir with
    | none => []
    | some q =>
      let project_files :=
        match q.projects with
        | some cs => (globJson cs).length
        | none => 0
      (FSOp.existsCheck (qcut_dir_path ++ ["projects"]) ::
        optOps q.projects
          (fun _ => [FSOp.globCall (qcut_dir_path ++ ["projects"]) "*.json"])) ++
      (FSOp.existsCheck (qcut_dir_path ++ ["IndexedDB"]) ::
        optOps q.indexedDB (fun cs =>
          FSOp.rglobCall (qcut_dir_path ++ ["IndexedDB"]) "*" ::
            ((belowList cs).map (fun f => FSOp.isDirCheck f) ++
              ((belowList cs).map (fun f => FSOp.isFileCheck f) ++
                ((belowList cs).filter (fun f => f.isFile)).flatMap
                  (fun f => [FSOp.existsCheck [f.name], FSOp.statCall f]))))) ++
      ([("Local Storage", q.localStorage), ("Session Storage", q.sessionStorage),
        ("blob_storage", q.blobStorage), ("File System", q.fileSystem)].flatMap
        (fun p =>
          FSOp.existsCheck (qcut_dir_path ++ [p.1]) ::
            optOps p.2 (fun cs =>
              FSOp.rglobCall (qcut_dir_path ++ [p.1]) "*" ::
                (belowList cs).map (fun f => FSOp.isFileCheck f)))) ++
      (if project_files = 0 then
        if q.indexedDB.isNone then
          [FSOp.existsCheck (qcut_dir_path ++ ["IndexedDB"])]
        else
          [FSOp.existsCheck (qcut_dir_path ++ ["IndexedDB"]),
            FSOp.existsCheck (qcut_dir_path ++ ["IndexedDB"])]
      else [])

/-- Replace the subtree of every directory entry in a listing by
applying `g` to its children, leaving files alone.  Used to state that
the tests-completed count only looks at the immediate level. -/
def Entry.withChildren (g : List Entry → List Entry) : Entry → Entry
  | .file n s m => .file n s m
  | .dir n m cs => .dir n m (g cs)

/- ------------------------------------------------------------------
Theorems
------------------------------------------------------------------ -/

theorem withChildren_isDir (g : List Entry → List Entry) (e : Entry) :
    (Entry.withChildren g e).isDir = e.isDir := by
  cases e <;> rfl

theorem percentOf_eq (n : ℕ) : percentOf n = ((100 * n / TOTAL_TESTS : ℕ) : ℤ) := by
  have h : (n : ℚ) / (TOTAL_TESTS : ℚ) * 100 =
      ((100 * n : ℕ) : ℚ) / ((TOTAL_TESTS : ℕ) : ℚ) := by
    push_cast
    ring
  rw [percentOf, h, Rat.floor_natCast_div_natCast, Int.natCast_div]

/-- C1: when the qcut root exists, the classification is decided by the
project-file count and the presence of the IndexedDB store: zero and
absent gives DATABASE IS CLEAN, zero and present gives PARTIALLY
CLEAN, and a positive count gives DATABASE HAS DATA regardless of the
store. -/
theorem classification_trichotomy (q : QcutDir) :
    (count_projects_report q).classification =
      if (count_projects_report q).project_files = 0 then
        (if q.indexedDB.isSome then Classification.partlyClean
          else Classification.clean)
      else Classification.hasData (count_projects_report q).project_files := by
  by_cases hp : (count_projects_report q).project_files = 0 <;>
    cases hdb : q.indexedDB <;>
      simp_all [count_projects_report]

/-- C2: the comparison of the subdirectory count against the checkpoint
count is an exhaustive trichotomy: strictly greater reports the
positive delta and the remaining count 66 - N, equal reports the
stalled notice, and smaller reports the unexpected-decrease notice;
only the strictly-greater branch carries a remaining figure. -/
theorem delta_trichotomy (entries : List Entry) :
    (progress_report entries).delta =
      if CHECKPOINT_COUNT < (progress_report entries).test_count then
        Delta.progress
          (((progress_report entries).test_count : ℤ) - (CHECKPOINT_COUNT : ℤ))
          ((TOTAL_TESTS : ℤ) - ((progress_report entries).test_count : ℤ))
      else if (progress_report entries).test_count = CHECKPOINT_COUNT then
        Delta.stalled
      else Delta.decreased := rfl

/-- C3: the tests-completed figure equals the number of immediate
subdirectories of the results directory: non-directory entries are
ignored, and (second conjunct) arbitrarily rewriting what is nested
below each subdirectory never changes the figure, so nothing deeper
than one level is counted. -/
theorem test_count_counts_subdirs (entries : List Entry)
    (g : List Entry → List Entry) :
    (progress_report entries).test_count = entries.countP (fun e => e.isDir) ∧
    (progress_report (entries.map (Entry.withChildren g))).test_count =
      (progress_report entries).test_count := by
  constructor
  · show (entries.filter (fun d => d.isDir)).length = _
    rw [List.countP_eq_length_filter]
  · show (List.filter (fun d => d.isDir) (entries.map (Entry.withChildren g))).length =
      (List.filter (fun d => d.isDir) entries).length
    induction entries with
    | nil => rfl
    | cons e es ih =>
      simp only [List.map_cons, List.filter_cons, withChildren_isDir]
      cases e.isDir <;> simp [ih]

/-- C4: the completion percentage is the integer floor of
100 * N / 66 with the total fixed at 66 (stated with natural-number
floor division); in particular a count of 41 yields 62. -/
theorem percent_is_floor (entries : List Entry) :
    (progress_report entries).percent =
      ((100 * (progress_report entries).test_count / TOTAL_TESTS : ℕ) : ℤ) ∧
    percentOf 41 = 62 := by
  constructor
  · have h : (progress_report entries).percent =
        percentOf (progress_report entries).test_count := rfl
    rw [h, percentOf_eq]
  · rw [percentOf_eq]
    rfl

/-- C6: when the expected root directory does not exist, each script
prints only its designated missing-path message and performs no
further filesystem operation after the existence check; both embedded
functions are total, so the run terminates normally. -/
theorem missing_root_behavior :
    check_test_progress none = ProgressOutput.resultsDirNotFound ∧
    count_projects none = CounterOutput.qcutDirMissing ∧
    check_test_progress_trace none = [FSOp.existsCheck results_dir_path] ∧
    count_projects_trace none = [FSOp.existsCheck qcut_dir_path] :=
  ⟨rfl, rfl, rfl, rfl⟩

theorem isFile_file (n : String) (s : Nat) (m : ℚ) :
    (Entry.file n s m).isFile = true := rfl

theorem isFile_dir (n : String) (m : ℚ) (cs : List Entry) :
    (Entry.dir n m cs).isFile = false := rfl

theorem size_file (n : String) (s : Nat) (m : ℚ) :
    (Entry.file n s m).size = s := rfl

theorem sum_sizes_below (es : List Entry) :
    (((belowList es).filter (fun f => f.isFile)).map (fun f => f.size)).sum =
      fileBytesList es := by
  induction es using belowList.induct with
  | case1 => simp [belowList, fileBytesList]
  | case2 n s m es ih =>
    simp [belowList, fileBytesList, List.filter_cons, isFile_file, size_file, ih]
  | case3 n m cs es ih1 ih2 =>
    simp [belowList, fileBytesList, List.filter_cons, isFile_dir,
      List.filter_append, List.map_append, List.sum_append, ih1, ih2]

/-- C7: when the IndexedDB store directory exists, the total-size value
printed for it is the sum of the byte sizes of all regular files at any
depth below it, divided by 1048576 (the printed string renders this
rational with two decimal digits). -/
theorem indexeddb_total_size (q : QcutDir) (cs : List Entry)
    (h : q.indexedDB = some cs) :
    ∃ nd nf, (count_projects_report q).indexedDBInfo =
      some (nd, nf, ((fileBytesList cs : ℚ) / 1048576)) := by
  rcases q with ⟨ps, db, s1, s2, s3, s4⟩
  obtain rfl : db = some cs := h
  have hc : ((1024 : ℚ) * 1024) = 1048576 := by norm_num
  refine ⟨((belowList cs).filter (fun f => f.isDir)).length,
    ((belowList cs).filter (fun f => f.isFile)).length, ?_⟩
  simp only [count_projects_report]
  rw [← sum_sizes_below cs, Nat.cast_list_sum, List.map_map, hc]
  rfl

/-- Concrete IndexedDB contents for the C7 witness: a 3-byte file and a
subdirectory holding a 5-byte file. -/
def c7_store : List Entry :=
  [Entry.file "a" 3 0, Entry.dir "d" 0 [Entry.file "b" 5 0]]

/-- Concrete qcut root for the C7 witness. -/
def c7_qdir : QcutDir := ⟨none, some c7_store, none, none, none, none⟩

/-- Witness for C7 at a concrete store with file sizes 3 and 5. -/
theorem indexeddb_total_size_witness :
    c7_qdir.indexedDB = some c7_store ∧
    ∃ nd nf, (count_projects_report c7_qdir).indexedDBInfo =
      some (nd, nf, ((fileBytesList c7_store : ℚ) / 1048576)) :=
  ⟨rfl, indexeddb_total_size c7_qdir c7_store rfl⟩

/-- Concrete projects-folder contents refuting C8 as stated: a
subdirectory whose name ends in .json. -/
def c8_projects : List Entry := [Entry.dir "stale.json" 0 []]

/-- Concrete qcut root for the C8 counterexample. -/
def c8_qdir : QcutDir := ⟨some c8_projects, none, none, none, none, none⟩

/-- C8 counterexample: with a projects folder containing a single
directory named stale.json, the counter prints and classifies with
count 1 (pathlib glob matches directories too), while the number of
regular files with the .json extension is 0, so the printed count is
not the number of .json files. -/
theorem project_count_not_file_count :
    (count_projects_report c8_qdir).project_files ≠
      (c8_projects.filter (fun e => e.isFile && nameMatchesJson e.name)).length := by
  decide

/-- C8 (amended): the project-file count printed and used for
classification equals the number of entries of any kind (regular files
or directories) in the projects subdirectory whose name matches
`*.json`, i.e. ends in .json; if the subdirectory is absent the count
remains zero and the does-not-exist line is printed instead. -/
theorem project_count_glob (q : QcutDir) :
    (q.projects = none →
      (count_projects_report q).project_files = 0 ∧
      (count_projects_report q).projectsFolderExists = false) ∧
    (∀ cs, q.projects = some cs →
      (count_projects_report q).project_files =
        (cs.filter (fun e => nameMatchesJson e.name)).length ∧
      (count_projects_report q).projectsFolderExists = true) := by
  constructor
  · intro h
    constructor
    · show (match q.projects with
        | some cs => (globJson cs).length
        | none => 0) = 0
      rw [h]
    · show q.projects.isSome = false
      rw [h]
      rfl
  · intro cs h
    constructor
    · show (match q.projects with
        | some cs => (globJson cs).length
        | none => 0) = (cs.filter (fun e => nameMatchesJson e.name)).length
      rw [h]
      rfl
    · show q.projects.isSome = true
      rw [h]
      rfl

/-- Witness for the amended C8 at a concrete projects folder. -/
theorem project_count_glob_witness :
    (count_projects_report c8_qdir).project_files =
      (c8_projects.filter (fun e => nameMatchesJson e.name)).length ∧
    (count_projects_report c8_qdir).projectsFolderExists = true :=
  (project_count_glob c8_qdir).2 c8_projects rfl

/-- C10: when the subdirectory count exceeds the total of 66, the
reporter still prints the percentage as the floor of 100 * N / 66,
which then exceeds 100, takes the strictly-greater branch with delta
N - 40, and prints the remaining figure 66 - N, a negative number;
nothing is clamped. -/
theorem no_upper_clamp (entries : List Entry)
    (h : TOTAL_TESTS < (progress_report entries).test_count) :
    (progress_report entries).percent =
      ((100 * (progress_report entries).test_count / TOTAL_TESTS : ℕ) : ℤ) ∧
    100 < (progress_report entries).percent ∧
    (progress_report entries).delta =
      Delta.progress
        (((progress_report entries).test_count : ℤ) - (CHECKPOINT_COUNT : ℤ))
        ((TOTAL_TESTS : ℤ) - ((progress_report entries).test_count : ℤ)) ∧
    (TOTAL_TESTS : ℤ) - ((progress_report entries).test_count : ℤ) < 0 := by
  have hT : TOTAL_TESTS = 66 := rfl
  have hC : CHECKPOINT_COUNT = 40 := rfl
  have hpercent : (progress_report entries).percent =
      percentOf (progress_report entries).test_count := rfl
  have hd : (progress_report entries).delta =
      (if CHECKPOINT_COUNT < (progress_report entries).test_count then
        Delta.progress
          (((progress_report entries).test_count : ℤ) - (CHECKPOINT_COUNT : ℤ))
          ((TOTAL_TESTS : ℤ) - ((progress_report entries).test_count : ℤ))
      else if (progress_report entries).test_count = CHECKPOINT_COUNT then
        Delta.stalled
      else Delta.decreased) := rfl
  refine ⟨?_, ?_, ?_, ?_⟩
  · rw [hpercent, percentOf_eq]
  · rw [hpercent, percentOf_eq]
    rw [hT] at h ⊢
    have hdiv : 100 < 100 * (progress_report entries).test_count / 66 := by
      omega
    exact_mod_cast hdiv
  · rw [hd, if_pos]
    rw [hC]
    rw [hT] at h
    omega
  · rw [hT] at h ⊢
    push_cast
    omega

/-- Concrete results listing with 67 subdirectories for the C10
witness. -/
def c10_entries : List Entry := List.replicate 67 (Entry.dir "t" 0 [])

/-- Witness for C10 at a results directory with 67 subdirectories. -/
theorem no_upper_clamp_witness :
    TOTAL_TESTS < (progress_report c10_entries).test_count ∧
    ((progress_report c10_entries).percent =
      ((100 * (progress_report c10_entries).test_count / TOTAL_TESTS : ℕ) : ℤ) ∧
    100 < (progress_report c10_entries).percent ∧
    (progress_report c10_entries).delta =
      Delta.progress
        (((progress_report c10_entries).test_count : ℤ) - (CHECKPOINT_COUNT : ℤ))
        ((TOTAL_TESTS : ℤ) - ((progress_report c10_entries).test_count : ℤ)) ∧
    (TOTAL_TESTS : ℤ) - ((progress_report c10_entries).test_count : ℤ) < 0) :=
  ⟨by decide, no_upper_clamp c10_entries (by decide)⟩

theorem mergeSort_desc_strict (l : List (String × ℚ))
    (hdist : l.Pairwise (fun a b => a.2 ≠ b.2)) :
    (l.mergeSort (fun a b => decide (b.2 ≤ a.2))).Pairwise
      (fun a b => b.2 < a.2) := by
  have hsorted : (l.mergeSort (fun a b => decide (b.2 ≤ a.2))).Pairwise
      (fun a b => (fun a b : String × ℚ => decide (b.2 ≤ a.2)) a b = true) :=
    List.sorted_mergeSort
      (fun a b c hab hbc => by
        simp only [decide_eq_true_eq] at *
        exact le_trans hbc hab)
      (fun a b => by
        simp only [Bool.or_eq_true, decide_eq_true_eq]
        exact le_total b.2 a.2)
      l
  have hperm : (l.mergeSort (fun a b => decide (b.2 ≤ a.2))).Perm l :=
    List.mergeSort_perm l _
  have hne : (l.mergeSort (fun a b => decide (b.2 ≤ a.2))).Pairwise
      (fun a b => a.2 ≠ b.2) :=
    (List.Perm.pairwise_iff (fun hxy => hxy.symm) hperm).mpr hdist
  exact (hsorted.and hne).imp (fun hab =>
    lt_of_le_of_ne (by simpa using hab.1) (Ne.symm hab.2))

/-- C5: when the subdirectories of the results directory have pairwise
distinct modification times, the printed recent-results list is
strictly descending by modification time, has exactly min(N, 5)
entries for N subdirectories, and every printed name is the
corresponding directory name truncated to its first 70 characters. -/
theorem recent_results_list (entries : List Entry)
    (hdist : ((entries.filter (fun d => d.isDir)).map
      (fun d => (d.name, d.mtime))).Pairwise (fun a b => a.2 ≠ b.2)) :
    (progress_report entries).recent.Pairwise (fun a b => b.2 < a.2) ∧
    (progress_report entries).recent.length =
      min (entries.countP (fun e => e.isDir)) 5 ∧
    ∀ p ∈ (progress_report entries).recent,
      ∃ e ∈ entries, e.isDir = true ∧ p = (e.name.take 70, e.mtime) := by
  have hrec : (progress_report entries).recent =
      ((((entries.filter (fun d => d.isDir)).map
        (fun d => (d.name, d.mtime))).mergeSort
          (fun a b => decide (b.2 ≤ a.2))).take 5).map
        (fun p => (p.1.take 70, p.2)) := rfl
  have hperm := List.mergeSort_perm
    ((entries.filter (fun d => d.isDir)).map (fun d => (d.name, d.mtime)))
    (fun a b : String × ℚ => decide (b.2 ≤ a.2))
  refine ⟨?_, ?_, ?_⟩
  · rw [hrec]
    refine List.pairwise_map.mpr ?_
    exact List.Pairwise.sublist (List.take_sublist 5 _)
      (mergeSort_desc_strict _ hdist)
  · rw [hrec, List.length_map, List.length_take, hperm.length_eq,
      List.length_map, ← List.countP_eq_length_filter, Nat.min_comm]
  · intro p hp
    rw [hrec] at hp
    obtain ⟨q', hq', rfl⟩ := List.mem_map.mp hp
    have hq2 : q' ∈ ((entries.filter (fun d => d.isDir)).map
        (fun d => (d.name, d.mtime))).mergeSort
          (fun a b => decide (b.2 ≤ a.2)) :=
      (List.take_sublist 5 _).subset hq'
    have hq3 := hperm.mem_iff.mp hq2
    obtain ⟨e, he, rfl⟩ := List.mem_map.mp hq3
    obtain ⟨he2, hdir⟩ := List.mem_filter.mp he
    exact ⟨e, he2, hdir, rfl⟩

/-- Concrete results listing for the C5 witness: three subdirectories
with distinct modification times and one regular file. -/
def c5_entries : List Entry :=
  [Entry.dir "a" 3 [], Entry.file "x" 9 9, Entry.dir "b" 1 [],
    Entry.dir "c" 2 []]

/-- Witness for C5 at a listing with distinct subdirectory
modification times. -/
theorem recent_results_list_witness :
    ((c5_entries.filter (fun d => d.isDir)).map
      (fun d => (d.name, d.mtime))).Pairwise (fun a b => a.2 ≠ b.2) ∧
    ((progress_report c5_entries).recent.Pairwise (fun a b => b.2 < a.2) ∧
    (progress_report c5_entries).recent.length =
      min (c5_entries.countP (fun e => e.isDir)) 5 ∧
    ∀ p ∈ (progress_report c5_entries).recent,
      ∃ e ∈ c5_entries, e.isDir = true ∧ p = (e.name.take 70, e.mtime)) :=
  ⟨by decide, recent_results_list c5_entries (by decide)⟩

theorem all_read_cons (x : FSOp) (xs : List FSOp)
    (h1 : FSOp.isRead x = true) (h2 : xs.all FSOp.isRead = true) :
    ((x :: xs).all FSOp.isRead) = true := by
  rw [List.all_cons, h1, h2]
  rfl

theorem all_read_append (xs ys : List FSOp)
    (h1 : xs.all FSOp.isRead = true) (h2 : ys.all FSOp.isRead = true) :
    ((xs ++ ys).all FSOp.isRead) = true := by
  rw [List.all_append, h1, h2]
  rfl

theorem all_read_map {α : Type} (l : List α) (g : α → FSOp)
    (h : ∀ e, FSOp.isRead (g e) = true) :
    ((l.map g).all FSOp.isRead) = true := by
  induction l with
  | nil => rfl
  | cons x xs ih =>
    rw [List.map_cons]
    exact all_read_cons _ _ (h x) ih

theorem all_read_flatMap {α : Type} (l : List α) (g : α → List FSOp)
    (h : ∀ e, ((g e).all FSOp.isRead) = true) :
    ((l.flatMap g).all FSOp.isRead) = true := by
  induction l with
  | nil => rfl
  | cons x xs ih =>
    rw [List.flatMap_cons]
    exact all_read_append _ _ (h x) ih

theorem all_read_ite (c : Prop) [Decidable c] (l1 l2 : List FSOp)
    (h1 : l1.all FSOp.isRead = true) (h2 : l2.all FSOp.isRead = true) :
    ((if c then l1 else l2).all FSOp.isRead) = true := by
  split
  · exact h1
  · exact h2

theorem all_read_optOps (o : Option (List Entry)) (g : List Entry → List FSOp)
    (h : ∀ cs, ((g cs).all FSOp.isRead) = true) :
    ((optOps o g).all FSOp.isRead) = true := by
  cases o
  · rfl
  · exact h _

/-- C9: every filesystem operation either script performs, on every
filesystem state, is a read: neither trace contains a write, delete or
directory-creation operation, so the filesystem is left unchanged. -/
theorem scripts_only_read (rd : Option (List Entry)) (q : Option QcutDir) :
    ((check_test_progress_trace rd).all FSOp.isRead) = true ∧
    ((count_projects_trace q).all FSOp.isRead) = true := by
  constructor
  · rcases rd with _ | entries
    · rfl
    · show ((FSOp.existsCheck results_dir_path ::
        (FSOp.listDir results_dir_path ::
          (entries.map (fun d => FSOp.isDirCheck d) ++
            (FSOp.listDir results_dir_path ::
              entries.flatMap (fun d =>
                FSOp.isDirCheck d ::
                  if d.isDir then [FSOp.getMtime d] else []))))).all
        FSOp.isRead) = true
      refine all_read_cons _ _ rfl (all_read_cons _ _ rfl
        (all_read_append _ _ ?_ ?_))
      · exact all_read_map _ _ (fun e => rfl)
      · refine all_read_cons _ _ rfl ?_
        refine all_read_flatMap _ _ (fun e => ?_)
        exact all_read_cons _ _ rfl (all_read_ite _ _ _ rfl rfl)
  · rcases q with _ | q
    · rfl
    · simp only [count_projects_trace]
      refine all_read_cons _ _ rfl ?_
      refine all_read_append _ _ (all_read_append _ _
        (all_read_append _ _ ?_ ?_) ?_) ?_
      · exact all_read_cons _ _ rfl (all_read_optOps _ _ (fun cs => rfl))
      · refine all_read_cons _ _ rfl (all_read_optOps _ _ (fun cs => ?_))
        refine all_read_cons _ _ rfl ?_
        refine all_read_append _ _ (all_read_map _ _ (fun e => rfl)) ?_
        refine all_read_append _ _ (all_read_map _ _ (fun e => rfl)) ?_
        exact all_read_flatMap _ _ (fun e => rfl)
      · refine all_read_flatMap _ _ (fun p => ?_)
        refine all_read_cons _ _ rfl ?_
        exact all_read_optOps _ _ (fun cs =>
          all_read_cons _ _ rfl (all_read_map _ _ (fun e => rfl)))
      · exact all_read_ite _ _ _ (all_read_ite _ _ _ rfl rfl) rfl
